import Mathlib

/-!
Shallow embedding of the form-validation code in biostar4/forum/forms.py
(and the context processor in biostar3/context.py), with proofs about its
behaviour.  Pieces of the repository that forms.py imports but that are
outside this excerpt — the tag parser parse_tags from biostar4.forum.utils,
the constant Profile.MAX_FILE_NUM from models.py, the Django settings
object and the external captcha module biostar4.forum.ext.captcha — are
taken as explicit parameters of the embedded functions, so every theorem
below holds for all of their possible values.

Conventions of the embedding: a Python function that may raise
ValidationError(msg) becomes a function into Except String carrying the
message; a Django queryset User.objects.filter(...) becomes a List.filter
over the user table, and the Python truthiness test on a queryset becomes
a comparison with the empty list.
-/

namespace Biostar

/-- A user record as stored by the ORM; only the fields the forms read. -/
structure User where
  username : String
  email : String
deriving DecidableEq

/-- The database state visible to the validators: the table of user rows. -/
abbrev Db := List User

/-- Result of a Python validator: Except.error msg embeds a raised
ValidationError(msg), Except.ok embeds a normal return. -/
abbrev VResult (α : Type) := Except String α

/-- The validator unique_email (forms.py lines 45-47), attached to the
email field of SignupForm.  Python:
if User.objects.filter(email=email): raise ValidationError(...). -/
def unique_email (db : Db) (email : String) : VResult Unit :=
  if db.filter (fun u => u.email == email) ≠ [] then
    Except.error ("The " ++ email ++ " email already exists ")
  else Except.ok ()

/-- The validator check_email (forms.py lines 50-52), attached to the
email fields of ResetForm and LoginForm. -/
def check_email (db : Db) (email : String) : VResult Unit :=
  if db.filter (fun u => u.email == email) = [] then
    Except.error ("The " ++ email ++ " email does not exists ")
  else Except.ok ()

/-- The validator check_tags (forms.py lines 55-65).  The tag parser
parse_tags lives in biostar4.forum.utils, outside this excerpt, so it is a
parameter.  Python computes bigs as the tags longer than 10 characters and
dups as len(set(tags)) != len(tags); the size of set(tags) is the number
of distinct elements of the list, embedded as tags.dedup.length. -/
def check_tags (parse_tags : String → List String) (text : String) : VResult Unit :=
  let tags := parse_tags text
  let bigs := tags.filter (fun tag => tag.length > 10)
  let dups := tags.dedup.length ≠ tags.length
  if tags.length > 10 then
    Except.error ("You have too many tags: " ++ toString tags.length)
  else if dups then
    Except.error "Duplicated tags in input"
  else if bigs ≠ [] then
    Except.error ("These tags are too long: " ++ String.intercalate "," bigs ++ " ")
  else Except.ok ()

/-- The Django settings fields read by forms.py; their values live in the
site configuration, outside this excerpt. -/
structure Settings where
  RECAPTCHA_ENABLED : Bool
  RECAPTCHA_SITE_KEY : String
  RECAPTCHA_SECRET_KEY : String

/-- The external module biostar4.forum.ext.captcha, outside this excerpt,
abstracted over the type of Django requests. -/
structure CaptchaApi (Request : Type) where
  html_field : String → String
  validate_captcha : Request → String → Bool × String

/-- get_captcha_field (forms.py lines 31-35). -/
def get_captcha_field {Request : Type} (settings : Settings)
    (captcha : CaptchaApi Request) : String :=
  if settings.RECAPTCHA_ENABLED then
    captcha.html_field settings.RECAPTCHA_SITE_KEY
  else ""

/-- validate_captcha (forms.py lines 38-42). -/
def validate_captcha {Request : Type} (settings : Settings)
    (captcha : CaptchaApi Request) (request : Request) : Bool × String :=
  if settings.RECAPTCHA_ENABLED then
    captcha.validate_captcha request settings.RECAPTCHA_SECRET_KEY
  else (true, "RECAPTCHA disabled")

/-- UserEditForm.clean_files (forms.py lines 152-158).  MAX_FILE_NUM comes
from the Profile model in models.py, outside this excerpt, so it is a
parameter; profileFiles embeds self.user.profile.files() and text embeds
the submitted value self.cleaned_data of the files field, a list of
uploads.  Python tests "text and count > Profile.MAX_FILE_NUM", and a list
is truthy exactly when non-empty. -/
def clean_files (MAX_FILE_NUM : Nat) (profileFiles : List String)
    (text : List String) : VResult (List String) :=
  let count := profileFiles.length
  if text ≠ [] ∧ count > MAX_FILE_NUM then
    Except.error ("Only " ++ toString MAX_FILE_NUM ++
      " file uploads are allowed. You have " ++ toString count)
  else Except.ok text

/-- UserEditForm.clean_email (forms.py lines 160-164); user is self.user. -/
def clean_email (db : Db) (user : User) (text : String) : VResult String :=
  if text ≠ user.email ∧ db.filter (fun u => u.email == text) ≠ [] then
    Except.error ("The email " ++ text ++ " already exists ")
  else Except.ok text

/-- The characters removed from both ends by Python text.strip(" @"). -/
def inStripSet (c : Char) : Bool := c == ' ' || c == '@'

/-- ASCII model of the Python str.lower character map: shift the letters
A-Z (codes 65-90) down by 32. -/
def lowerChar (c : Char) : Char :=
  if 65 ≤ c.toNat ∧ c.toNat ≤ 90 then Char.ofNat (c.toNat + 32) else c

/-- Python text.lower() on the character list. -/
def pyLower (s : List Char) : List Char := s.map lowerChar

/-- Python text.strip(" @"): drop the characters of the strip set from the
right end (via the reversal) and then from the left end. -/
def pyStrip (s : List Char) : List Char :=
  ((s.reverse.dropWhile inStripSet).reverse).dropWhile inStripSet

/-- The whitespace characters recognised by Python str.split(), i.e. the
characters on which CPython reports str.isspace: the codes 9-13 (tab,
newline, vertical tab, form feed, carriage return), 28-32 (the file,
group, record and unit separators and the plain space), next line 0x85,
no-break space 0xa0, ogham space 0x1680, the Unicode spaces
0x2000-0x200a, the line and paragraph separators 0x2028 and 0x2029, and
the spaces 0x202f, 0x205f and 0x3000. -/
def pyIsSpace (c : Char) : Bool :=
  (9 ≤ c.toNat ∧ c.toNat ≤ 13) ∨ (28 ≤ c.toNat ∧ c.toNat ≤ 32) ∨
  c.toNat = 0x85 ∨ c.toNat = 0xa0 ∨ c.toNat = 0x1680 ∨
  (0x2000 ≤ c.toNat ∧ c.toNat ≤ 0x200a) ∨ c.toNat = 0x2028 ∨ c.toNat = 0x2029 ∨
  c.toNat = 0x202f ∨ c.toNat = 0x205f ∨ c.toNat = 0x3000

/-- Python "".join(text.split()): remove every whitespace character. -/
def removeWs (s : List Char) : List Char := s.filter (fun c => !pyIsSpace c)

/-- The normalisation performed by UserEditForm.clean_username (forms.py
lines 177-180): text.lower(), then text.strip(" @"), then
"".join(text.split()). -/
def normUsername (t : String) : String := ⟨removeWs (pyStrip (pyLower t.data))⟩

/-- Python text.startswith(p), embedded on the character lists. -/
def startswith (t p : String) : Bool := List.isPrefixOf p.data t.data

/-- UserEditForm.clean_username (forms.py lines 176-193); user is
self.user and db the user table.  The two raises are guarded by
text != self.user.username. -/
def clean_username (db : Db) (user : User) (text0 : String) : VResult String :=
  let text := normUsername text0
  if text ≠ user.username ∧ db.filter (fun u => u.username == text) ≠ [] then
    Except.error ("The username " ++ text ++ " already exists ")
  else if text ≠ user.username ∧ startswith text "user" then
    Except.error "New usernames may not start with the word 'user'."
  else Except.ok text

/-- Saving an accepted username on a user row, as the profile-edit view
does after validation; used below to examine the interleaving of two
submissions of the same username. -/
def saveUsername (db : Db) (u : User) (newname : String) : Db :=
  db.map (fun v => if v = u then User.mk newname v.email else v)

/-- A Python object as seen through hasattr, getattr and setattr: a
partial map from attribute names to values. -/
abbrev Obj (α : Type) := String → Option α

/-- Python setattr(obj, name, value). -/
def setattr {α : Type} (obj : Obj α) (name : String) (value : α) : Obj α :=
  fun n => if n = name then some value else obj n

/-- Python hasattr(obj, name). -/
def hasattr {α : Type} (obj : Obj α) (name : String) : Bool :=
  (obj name).isSome

/-- A bound Django form as the helper update sees it: the result of
form.is_valid() and the dictionary form.cleaned_data (as an association
list; a Python dict has pairwise distinct keys). -/
structure Form (α : Type) where
  is_valid : Bool
  cleaned_data : List (String × α)

/-- The helper update(obj, form) (forms.py lines 22-28): when the form is
valid, copy each cleaned field onto obj when obj has an attribute of that
name; always return obj. -/
def update {α : Type} (obj : Obj α) (form : Form α) : Obj α :=
  if form.is_valid then
    form.cleaned_data.foldl
      (fun o p => if hasattr o p.1 then setattr o p.1 p.2 else o) obj
  else obj

/-- The loop body of update, named for the proofs below: one iteration of
the for-loop over form.cleaned_data.items(). -/
def updStep {α : Type} : Obj α → String × α → Obj α :=
  fun o p => if hasattr o p.1 then setattr o p.1 p.2 else o

/-- The context processor shortcuts (biostar3/context.py lines 8-15): it
returns a constant one-entry context for every request. -/
def shortcuts (VERSION : String) : List (String × String) :=
  [("BIOSTAR_VERSION", VERSION)]

/-! Bridge lemmas between the queryset-style conditions appearing in the
embedded code and the predicate-style conditions of the specification. -/

theorem filter_ne_nil_iff {α : Type} (p : α → Bool) (l : List α) :
    l.filter p ≠ [] ↔ ∃ a ∈ l, p a = true := by
  rw [Ne, List.filter_eq_nil_iff]
  push_neg
  simp

theorem dedup_length_eq_iff {l : List String} :
    l.dedup.length = l.length ↔ l.Nodup :=
  ⟨fun h => List.dedup_eq_self.mp (l.dedup_sublist.eq_of_length h),
   fun h => by rw [List.dedup_eq_self.mpr h]⟩

/-- Normal form of unique_email: it raises exactly when a user row with
the given email exists, with the message interpolating the email. -/
theorem unique_email_eq (db : Db) (email : String) :
    unique_email db email =
      if ∃ u ∈ db, u.email = email then
        Except.error ("The " ++ email ++ " email already exists ")
      else Except.ok () := by
  unfold unique_email
  by_cases h : ∃ u ∈ db, u.email = email
  · rw [if_pos ((filter_ne_nil_iff _ db).mpr (by simpa using h)), if_pos h]
  · rw [if_neg (fun hc => h (by simpa using (filter_ne_nil_iff _ db).mp hc)),
      if_neg h]

/-- Normal form of check_email: it raises exactly when no user row with
the given email exists. -/
theorem check_email_eq (db : Db) (email : String) :
    check_email db email =
      if ∃ u ∈ db, u.email = email then Except.ok ()
      else Except.error ("The " ++ email ++ " email does not exists ") := by
  unfold check_email
  by_cases h : ∃ u ∈ db, u.email = email
  · rw [if_neg ((filter_ne_nil_iff _ db).mpr (by simpa using h)), if_pos h]
  · have hnil : List.filter (fun u => u.email == email) db = [] := by
      by_contra hne
      exact h (by simpa using (filter_ne_nil_iff _ db).mp hne)
    rw [if_pos hnil, if_neg h]

/-- Normal form of check_tags: the three raises in order, with the
conditions restated as predicates on the parsed tag list. -/
theorem check_tags_eq (parse_tags : String → List String) (text : String) :
    check_tags parse_tags text =
      (if (parse_tags text).length > 10 then
        Except.error ("You have too many tags: " ++ toString (parse_tags text).length)
      else if ¬(parse_tags text).Nodup then
        Except.error "Duplicated tags in input"
      else if ∃ tag ∈ parse_tags text, 10 < tag.length then
        Except.error ("These tags are too long: " ++
          String.intercalate "," ((parse_tags text).filter (fun tag => tag.length > 10)) ++ " ")
      else Except.ok ()) := by
  unfold check_tags
  simp only []
  have h2iff : ((parse_tags text).dedup.length ≠ (parse_tags text).length) ↔
      ¬(parse_tags text).Nodup := not_congr dedup_length_eq_iff
  have h3iff : ((parse_tags text).filter (fun tag => tag.length > 10) ≠ []) ↔
      ∃ tag ∈ parse_tags text, 10 < tag.length := by
    rw [filter_ne_nil_iff]
    simp
  by_cases h1 : (parse_tags text).length > 10
  · rw [if_pos h1, if_pos h1]
  · rw [if_neg h1, if_neg h1]
    by_cases h2 : ¬(parse_tags text).Nodup
    · rw [if_pos (h2iff.mpr h2), if_pos h2]
    · rw [if_neg (fun hc => h2 (h2iff.mp hc)), if_neg h2]
      by_cases h3 : ∃ tag ∈ parse_tags text, 10 < tag.length
      · rw [if_pos (h3iff.mpr h3), if_pos h3]
      · rw [if_neg (fun hc => h3 (h3iff.mp hc)), if_neg h3]

/-- Normal form of clean_files. -/
theorem clean_files_eq (MAX_FILE_NUM : Nat) (profileFiles text : List String) :
    clean_files MAX_FILE_NUM profileFiles text =
      if text ≠ [] ∧ MAX_FILE_NUM < profileFiles.length then
        Except.error ("Only " ++ toString MAX_FILE_NUM ++
          " file uploads are allowed. You have " ++ toString profileFiles.length)
      else Except.ok text := by
  unfold clean_files
  rfl

/-- Normal form of clean_email. -/
theorem clean_email_eq (db : Db) (user : User) (text : String) :
    clean_email db user text =
      if text ≠ user.email ∧ ∃ u ∈ db, u.email = text then
        Except.error ("The email " ++ text ++ " already exists ")
      else Except.ok text := by
  unfold clean_email
  by_cases h : text ≠ user.email ∧ ∃ u ∈ db, u.email = text
  · rw [if_pos ⟨h.1, (filter_ne_nil_iff _ db).mpr (by simpa using h.2)⟩, if_pos h]
  · rw [if_neg (fun hc => h ⟨hc.1, by simpa using (filter_ne_nil_iff _ db).mp hc.2⟩),
      if_neg h]

/-- Normal form of clean_username. -/
theorem clean_username_eq (db : Db) (user : User) (text0 : String) :
    clean_username db user text0 =
      (if normUsername text0 ≠ user.username ∧
          ∃ u ∈ db, u.username = normUsername text0 then
        Except.error ("The username " ++ normUsername text0 ++ " already exists ")
      else if normUsername text0 ≠ user.username ∧
          startswith (normUsername text0) "user" = true then
        Except.error "New usernames may not start with the word 'user'."
      else Except.ok (normUsername text0)) := by
  unfold clean_username
  simp only []
  by_cases h1 : normUsername text0 ≠ user.username ∧
      ∃ u ∈ db, u.username = normUsername text0
  · rw [if_pos ⟨h1.1, (filter_ne_nil_iff _ db).mpr (by simpa using h1.2)⟩, if_pos h1]
  · rw [if_neg (fun hc =>
        h1 ⟨hc.1, by simpa using (filter_ne_nil_iff _ db).mp hc.2⟩), if_neg h1]

/-! Character-level facts about the username normalisation. -/

theorem toNat_ofNat_valid (n : Nat) (h1 : 97 ≤ n) (h2 : n ≤ 122) :
    (Char.ofNat n).toNat = n := by
  interval_cases n <;> decide

theorem lowerChar_toNat_of_upper {c : Char} (h : 65 ≤ c.toNat ∧ c.toNat ≤ 90) :
    97 ≤ (lowerChar c).toNat ∧ (lowerChar c).toNat ≤ 122 := by
  unfold lowerChar
  rw [if_pos h, toNat_ofNat_valid (c.toNat + 32) (by omega) (by omega)]
  omega

theorem lowerChar_fix {c : Char} (h : ¬(65 ≤ c.toNat ∧ c.toNat ≤ 90)) :
    lowerChar c = c := by
  unfold lowerChar
  rw [if_neg h]

theorem lowerChar_not_upper (c : Char) :
    ¬(65 ≤ (lowerChar c).toNat ∧ (lowerChar c).toNat ≤ 90) := by
  by_cases h : 65 ≤ c.toNat ∧ c.toNat ≤ 90
  · have h2 := lowerChar_toNat_of_upper h
    omega
  · rw [lowerChar_fix h]
    exact h

theorem lowerChar_idem (c : Char) : lowerChar (lowerChar c) = lowerChar c :=
  lowerChar_fix (lowerChar_not_upper c)

theorem pyIsSpace_iff (c : Char) : pyIsSpace c = true ↔
    ((9 ≤ c.toNat ∧ c.toNat ≤ 13) ∨ (28 ≤ c.toNat ∧ c.toNat ≤ 32) ∨
     c.toNat = 0x85 ∨ c.toNat = 0xa0 ∨ c.toNat = 0x1680 ∨
     (0x2000 ≤ c.toNat ∧ c.toNat ≤ 0x200a) ∨ c.toNat = 0x2028 ∨ c.toNat = 0x2029 ∨
     c.toNat = 0x202f ∨ c.toNat = 0x205f ∨ c.toNat = 0x3000) := by
  simp [pyIsSpace]

theorem inStripSet_toNat {c : Char} (h : inStripSet c = true) :
    c.toNat = 32 ∨ c.toNat = 64 := by
  simp only [inStripSet, Bool.or_eq_true, beq_iff_eq] at h
  rcases h with h | h <;> subst h
  · exact Or.inl (by decide)
  · exact Or.inr (by decide)

/-- No character with a code between 33 and 132 is Python whitespace; in
particular no ASCII letter is. -/
theorem pyIsSpace_eq_false_of_midrange {c : Char} (h1 : 33 ≤ c.toNat)
    (h2 : c.toNat ≤ 132) : pyIsSpace c = false := by
  cases hc : pyIsSpace c
  · rfl
  · have h3 := (pyIsSpace_iff c).mp hc
    omega

theorem inStripSet_eq_false_of_lower_letter {c : Char}
    (h : 97 ≤ c.toNat ∧ c.toNat ≤ 122) : inStripSet c = false := by
  cases hc : inStripSet c
  · rfl
  · rcases inStripSet_toNat hc with h2 | h2 <;> omega

/-- The lower-casing map does not change whether a character is
whitespace. -/
theorem pyIsSpace_lowerChar (c : Char) : pyIsSpace (lowerChar c) = pyIsSpace c := by
  by_cases h : 65 ≤ c.toNat ∧ c.toNat ≤ 90
  · have h2 := lowerChar_toNat_of_upper h
    rw [pyIsSpace_eq_false_of_midrange (by omega) (by omega),
      pyIsSpace_eq_false_of_midrange (by omega) (by omega)]
  · rw [lowerChar_fix h]

theorem mem_pyStrip {c : Char} {s : List Char} (h : c ∈ pyStrip s) : c ∈ s := by
  unfold pyStrip at h
  have h1 := (List.dropWhile_sublist inStripSet).subset h
  rw [List.mem_reverse] at h1
  have h2 := (List.dropWhile_sublist inStripSet).subset h1
  rw [List.mem_reverse] at h2
  exact h2

theorem mem_removeWs {c : Char} {s : List Char} (h : c ∈ removeWs s) :
    c ∈ s ∧ pyIsSpace c = false := by
  unfold removeWs at h
  rw [List.mem_filter] at h
  exact ⟨h.1, by simpa using h.2⟩

/-- The head of what dropWhile returns fails the dropped predicate. -/
theorem dropWhile_head_false {p : Char → Bool} {l rest : List Char} {a : Char}
    (h : l.dropWhile p = a :: rest) : p a = false := by
  induction l with
  | nil => simp [List.dropWhile] at h
  | cons b l ih =>
    rw [List.dropWhile_cons] at h
    by_cases hb : p b = true
    · rw [if_pos hb] at h
      exact ih h
    · rw [if_neg hb] at h
      cases h
      simpa using hb

theorem dropWhile_eq_self_of_head {p : Char → Bool} {l : List Char}
    (h : ∀ b tl, l = b :: tl → p b = false) : l.dropWhile p = l := by
  cases l with
  | nil => rfl
  | cons b tl =>
    rw [List.dropWhile_cons, if_neg (by simp [h b tl rfl])]

/-- dropWhile returns a suffix of its input. -/
theorem dropWhile_suffix (p : Char → Bool) (l : List Char) :
    ∃ t, t ++ l.dropWhile p = l := by
  induction l with
  | nil => exact ⟨[], rfl⟩
  | cons b tl ih =>
    rw [List.dropWhile_cons]
    by_cases hb : p b = true
    · rw [if_pos hb]
      obtain ⟨t, ht⟩ := ih
      exact ⟨b :: t, by rw [List.cons_append, ht]⟩
    · rw [if_neg hb]
      exact ⟨[], rfl⟩

/-- Key head lemma: if every whitespace character of l is a plain space
and the head of l is outside the strip set, then the head of the
whitespace-removal of l is outside the strip set. -/
theorem removeWs_head_notStrip {l rest : List Char} {a : Char}
    (H : ∀ c ∈ l, pyIsSpace c = true → c = ' ')
    (hhead : ∀ b tl, l = b :: tl → inStripSet b = false)
    (h : removeWs l = a :: rest) : inStripSet a = false := by
  induction l with
  | nil => simp [removeWs] at h
  | cons b tl ih =>
    have hb : inStripSet b = false := hhead b tl rfl
    have hbws : pyIsSpace b = false := by
      cases hw : pyIsSpace b
      · rfl
      · have hsp := H b (List.mem_cons_self b tl) hw
        subst hsp
        simp [inStripSet] at hb
    unfold removeWs at h
    rw [List.filter_cons, if_pos (by simp [hbws])] at h
    cases h
    exact hb

theorem map_id_of_mem {f : Char → Char} {l : List Char}
    (h : ∀ c ∈ l, f c = c) : l.map f = l := by
  induction l with
  | nil => rfl
  | cons b tl ih =>
    rw [List.map_cons, h b (List.mem_cons_self b tl),
      ih (fun c hc => h c (List.mem_cons_of_mem b hc))]

/-- Every character of a normalised username is non-whitespace and is not
an upper-case ASCII letter. -/
theorem normUsername_no_ws_no_upper (t : String) :
    ∀ c ∈ (normUsername t).data,
      pyIsSpace c = false ∧ ¬(65 ≤ c.toNat ∧ c.toNat ≤ 90) := by
  intro c hc
  have hc2 : c ∈ removeWs (pyStrip (pyLower t.data)) := hc
  obtain ⟨hmem, hws⟩ := mem_removeWs hc2
  have hmem2 : c ∈ pyLower t.data := mem_pyStrip hmem
  unfold pyLower at hmem2
  rw [List.mem_map] at hmem2
  obtain ⟨d, _, rfl⟩ := hmem2
  exact ⟨hws, lowerChar_not_upper d⟩

/-- Lower-casing preserves the property that every whitespace character is
a plain space. -/
theorem wsCond_pyLower {t : List Char}
    (H : ∀ c ∈ t, pyIsSpace c = true → c = ' ') :
    ∀ c ∈ pyLower t, pyIsSpace c = true → c = ' ' := by
  intro c hc hws
  unfold pyLower at hc
  rw [List.mem_map] at hc
  obtain ⟨d, hd, rfl⟩ := hc
  rw [pyIsSpace_lowerChar] at hws
  rw [H d hd hws]
  exact lowerChar_fix (by decide)

theorem pyStrip_head {L : List Char} {b : Char} {tl : List Char}
    (h : pyStrip L = b :: tl) : inStripSet b = false := by
  unfold pyStrip at h
  exact dropWhile_head_false h

theorem pyStrip_reverse_head {L : List Char} {b : Char} {tl : List Char}
    (h : (pyStrip L).reverse = b :: tl) : inStripSet b = false := by
  obtain ⟨t, ht⟩ :=
    dropWhile_suffix inStripSet ((L.reverse.dropWhile inStripSet).reverse)
  have hrev : (pyStrip L).reverse ++ t.reverse = L.reverse.dropWhile inStripSet := by
    have h2 := congrArg List.reverse ht
    rw [List.reverse_append, List.reverse_reverse] at h2
    exact h2
  rw [h] at hrev
  exact dropWhile_head_false hrev.symm

/-- When every whitespace character of the input is a plain space, the
head of the normalised username is outside the strip set. -/
theorem normUsername_head {t : String}
    (H : ∀ c ∈ t.data, pyIsSpace c = true → c = ' ') :
    ∀ a rest, (normUsername t).data = a :: rest → inStripSet a = false := by
  intro a rest h
  have h2 : removeWs (pyStrip (pyLower t.data)) = a :: rest := h
  refine removeWs_head_notStrip ?_ ?_ h2
  · intro c hc
    exact wsCond_pyLower H c (mem_pyStrip hc)
  · intro b tl hb
    exact pyStrip_head hb

/-- When every whitespace character of the input is a plain space, the
last character of the normalised username is outside the strip set. -/
theorem normUsername_last {t : String}
    (H : ∀ c ∈ t.data, pyIsSpace c = true → c = ' ') :
    ∀ a rest, (normUsername t).data.reverse = a :: rest → inStripSet a = false := by
  intro a rest h
  have hrev : (normUsername t).data.reverse =
      removeWs ((pyStrip (pyLower t.data)).reverse) := by
    show (removeWs (pyStrip (pyLower t.data))).reverse = _
    unfold removeWs
    rw [List.filter_reverse]
  rw [hrev] at h
  refine removeWs_head_notStrip ?_ ?_ h
  · intro c hc
    rw [List.mem_reverse] at hc
    exact wsCond_pyLower H c (mem_pyStrip hc)
  · intro b tl hb
    exact pyStrip_reverse_head hb

/-- When every whitespace character of the input is a plain space, the
normalisation is idempotent: normalising the returned username again
changes nothing. -/
theorem normUsername_idem {t : String}
    (H : ∀ c ∈ t.data, pyIsSpace c = true → c = ' ') :
    normUsername (normUsername t) = normUsername t := by
  have hchars := normUsername_no_ws_no_upper t
  have hlower : pyLower (normUsername t).data = (normUsername t).data :=
    map_id_of_mem (fun c hc => lowerChar_fix (hchars c hc).2)
  have hrevdrop : (normUsername t).data.reverse.dropWhile inStripSet =
      (normUsername t).data.reverse :=
    dropWhile_eq_self_of_head (fun b tl hb => by
      rw [normUsername_last H b tl hb])
  have hdrop : (normUsername t).data.dropWhile inStripSet = (normUsername t).data :=
    dropWhile_eq_self_of_head (fun b tl hb => by
      rw [normUsername_head H b tl hb])
  have hstrip : pyStrip (normUsername t).data = (normUsername t).data := by
    unfold pyStrip
    rw [hrevdrop, List.reverse_reverse, hdrop]
  have hfilter : removeWs (normUsername t).data = (normUsername t).data :=
    List.filter_eq_self.mpr (fun c hc => by simp [(hchars c hc).1])
  show (⟨removeWs (pyStrip (pyLower (normUsername t).data))⟩ : String) = normUsername t
  rw [hlower, hstrip, hfilter]

/-! Facts about the helper update. -/

theorem update_eq_foldl {α : Type} (obj : Obj α) (form : Form α) :
    update obj form =
      if form.is_valid then form.cleaned_data.foldl updStep obj else obj := rfl

theorem updStep_preserve_isSome {α : Type} (o : Obj α) (p : String × α)
    (n : String) : ((updStep o p) n).isSome = (o n).isSome := by
  unfold updStep
  by_cases h : hasattr o p.1 = true
  · rw [if_pos h]
    unfold setattr
    by_cases hn : n = p.1
    · rw [if_pos hn]
      subst hn
      unfold hasattr at h
      simp [h]
    · rw [if_neg hn]
  · rw [if_neg h]

theorem updStep_other {α : Type} (o : Obj α) (p : String × α) {n : String}
    (h : n ≠ p.1) : (updStep o p) n = o n := by
  unfold updStep
  by_cases hh : hasattr o p.1 = true
  · rw [if_pos hh]
    unfold setattr
    rw [if_neg h]
  · rw [if_neg hh]

theorem foldl_updStep_isSome {α : Type} (l : List (String × α)) (obj : Obj α)
    (n : String) : ((l.foldl updStep obj) n).isSome = (obj n).isSome := by
  induction l generalizing obj with
  | nil => rfl
  | cons p tl ih => rw [List.foldl_cons, ih, updStep_preserve_isSome]

theorem foldl_updStep_not_mem {α : Type} (l : List (String × α)) (obj : Obj α)
    (n : String) (h : n ∉ l.map Prod.fst) : (l.foldl updStep obj) n = obj n := by
  induction l generalizing obj with
  | nil => rfl
  | cons p tl ih =>
    rw [List.map_cons, List.mem_cons] at h
    push_neg at h
    rw [List.foldl_cons, ih _ h.2, updStep_other _ _ h.1]

theorem foldl_updStep_none {α : Type} (l : List (String × α)) (obj : Obj α)
    (n : String) (h : obj n = none) : (l.foldl updStep obj) n = none := by
  have hs := foldl_updStep_isSome l obj n
  rw [h] at hs
  cases hx : (l.foldl updStep obj) n
  · rfl
  · rw [hx] at hs
    simp at hs

theorem foldl_updStep_assigned {α : Type} (l : List (String × α)) (obj : Obj α)
    (n : String) (v : α) (hnd : (l.map Prod.fst).Nodup) (hmem : (n, v) ∈ l)
    (hs : (obj n).isSome = true) : (l.foldl updStep obj) n = some v := by
  induction l generalizing obj with
  | nil => simp at hmem
  | cons p tl ih =>
    rw [List.map_cons, List.nodup_cons] at hnd
    rw [List.foldl_cons]
    rcases List.mem_cons.mp hmem with heq | hmemtl
    · have hp1 : p.1 = n := by rw [← heq]
      have hstep : (updStep obj p) = setattr obj n p.2 := by
        unfold updStep
        rw [if_pos (by unfold hasattr; rw [hp1]; exact hs), hp1]
      have hnotin : n ∉ tl.map Prod.fst := by
        rw [← hp1]
        exact hnd.1
      rw [hstep, foldl_updStep_not_mem tl _ n hnotin]
      unfold setattr
      rw [if_pos rfl, ← heq]
    · have hne : n ≠ p.1 := by
        intro he
        exact hnd.1 (he ▸ List.mem_map_of_mem Prod.fst hmemtl)
      refine ih (updStep obj p) hnd.2 hmemtl ?_
      rw [updStep_other _ _ hne]
      exact hs

/-- On success, clean_username returns exactly the normalised input. -/
theorem clean_username_ok {db : Db} {user : User} {t r : String}
    (h : clean_username db user t = Except.ok r) : r = normUsername t := by
  rw [clean_username_eq] at h
  split_ifs at h
  simp at h
  exact h.symm

/-! The claims. -/

/-- C1: for every tag input string, check_tags raises exactly when the
parsed tag list has more than 10 tags, contains a duplicate, or contains
a tag longer than 10 characters; the too-many-tags error fires first,
then the duplicate error, then the tag-length error; and when none of the
three conditions holds check_tags returns normally.  The parser parse_tags
is outside this excerpt and is universally quantified. -/
theorem claim_c1_check_tags (parse_tags : String → List String) (text : String) :
    (check_tags parse_tags text = Except.ok () ↔
      ¬((parse_tags text).length > 10 ∨ ¬(parse_tags text).Nodup ∨
        ∃ tag ∈ parse_tags text, 10 < tag.length))
    ∧ ((parse_tags text).length > 10 →
        check_tags parse_tags text =
          Except.error ("You have too many tags: " ++ toString (parse_tags text).length))
    ∧ (¬(parse_tags text).length > 10 → ¬(parse_tags text).Nodup →
        check_tags parse_tags text = Except.error "Duplicated tags in input")
    ∧ (¬(parse_tags text).length > 10 → (parse_tags text).Nodup →
        (∃ tag ∈ parse_tags text, 10 < tag.length) →
        check_tags parse_tags text =
          Except.error ("These tags are too long: " ++
            String.intercalate ","
              ((parse_tags text).filter (fun tag => tag.length > 10)) ++ " ")) := by
  rw [check_tags_eq]
  split_ifs with h1 h2 h3 <;> refine ⟨?_, ?_, ?_, ?_⟩ <;> simp_all

theorem claim_c1_check_tags_witness :
    check_tags (fun _ => List.replicate 11 "a") "x" =
      Except.error ("You have too many tags: " ++
        toString (List.replicate 11 "a" : List String).length) :=
  (claim_c1_check_tags (fun _ => List.replicate 11 "a") "x").2.1 (by decide)

/-- C2: unique_email raises a ValidationError exactly when a user row
with the given email exists in the database, and otherwise returns
normally; in this embedding it is a pure read of the user table, so it
modifies no state. -/
theorem claim_c2_unique_email (db : Db) (email : String) :
    ((∃ msg, unique_email db email = Except.error msg) ↔ ∃ u ∈ db, u.email = email)
    ∧ (unique_email db email = Except.ok () ↔ ¬∃ u ∈ db, u.email = email) := by
  rw [unique_email_eq]
  by_cases h : ∃ u ∈ db, u.email = email
  · rw [if_pos h]
    simp [h]
  · rw [if_neg h]
    simp [h]

/-- C3: clean_files raises exactly when the submitted files value is
non-empty and the count of files already stored on the profile strictly
exceeds MAX_FILE_NUM; with no submitted files it never raises; and on
success it returns the submitted value unchanged.  MAX_FILE_NUM lives in
models.py, outside this excerpt, and is universally quantified. -/
theorem claim_c3_clean_files (MAX_FILE_NUM : Nat)
    (profileFiles text : List String) :
    ((∃ msg, clean_files MAX_FILE_NUM profileFiles text = Except.error msg) ↔
      text ≠ [] ∧ MAX_FILE_NUM < profileFiles.length)
    ∧ (text = [] → clean_files MAX_FILE_NUM profileFiles text = Except.ok text)
    ∧ (¬(text ≠ [] ∧ MAX_FILE_NUM < profileFiles.length) →
        clean_files MAX_FILE_NUM profileFiles text = Except.ok text) := by
  rw [clean_files_eq]
  by_cases h : text ≠ [] ∧ MAX_FILE_NUM < profileFiles.length
  · rw [if_pos h]
    refine ⟨by simp [h], fun he => absurd he h.1, fun hc => absurd h hc⟩
  · rw [if_neg h]
    refine ⟨by simp [h], fun _ => rfl, fun _ => rfl⟩

theorem claim_c3_clean_files_witness :
    clean_files 3 ["f1", "f2", "f3", "f4"] [] = Except.ok [] :=
  (claim_c3_clean_files 3 ["f1", "f2", "f3", "f4"] []).2.1 rfl

/-- C4 counterexample: the failure message of unique_email interpolates
the offending email, so it is not a fixed string independent of the
input: two failing inputs produce two different messages. -/
theorem claim_c4_counterexample :
    unique_email [User.mk "u1" "a@b.c", User.mk "u2" "x@y.z"] "a@b.c" =
      Except.error "The a@b.c email already exists "
    ∧ unique_email [User.mk "u1" "a@b.c", User.mk "u2" "x@y.z"] "x@y.z" =
      Except.error "The x@y.z email already exists "
    ∧ "The a@b.c email already exists " ≠ "The x@y.z email already exists " :=
  ⟨rfl, rfl, by decide⟩

/-- C4 amended: every validation failure surfaces as a form error whose
message comes from a fixed English template; the template may interpolate
the offending value (the email, the tag count, the offending tags, the
file counts or the username), but nothing else varies. -/
theorem claim_c4_messages_fixed_templates (db : Db) (user : User)
    (e : String) (parse_tags : String → List String) (text : String)
    (MAX_FILE_NUM : Nat) (profileFiles files : List String) (t0 : String) :
    (∀ msg, unique_email db e = Except.error msg →
      msg = "The " ++ e ++ " email already exists ")
    ∧ (∀ msg, check_email db e = Except.error msg →
      msg = "The " ++ e ++ " email does not exists ")
    ∧ (∀ msg, check_tags parse_tags text = Except.error msg →
      msg = "You have too many tags: " ++ toString (parse_tags text).length
      ∨ msg = "Duplicated tags in input"
      ∨ msg = "These tags are too long: " ++
          String.intercalate ","
            ((parse_tags text).filter (fun tag => tag.length > 10)) ++ " ")
    ∧ (∀ msg, clean_files MAX_FILE_NUM profileFiles files = Except.error msg →
      msg = "Only " ++ toString MAX_FILE_NUM ++
        " file uploads are allowed. You have " ++ toString profileFiles.length)
    ∧ (∀ msg, clean_email db user e = Except.error msg →
      msg = "The email " ++ e ++ " already exists ")
    ∧ (∀ msg, clean_username db user t0 = Except.error msg →
      msg = "The username " ++ normUsername t0 ++ " already exists "
      ∨ msg = "New usernames may not start with the word 'user'.") := by
  refine ⟨?_, ?_, ?_, ?_, ?_, ?_⟩ <;> intro msg h
  · rw [unique_email_eq] at h
    split_ifs at h
    simp at h
    subst h
    simp
  · rw [check_email_eq] at h
    split_ifs at h
    simp at h
    subst h
    simp
  · rw [check_tags_eq] at h
    split_ifs at h <;> simp at h <;> subst h <;> simp
  · rw [clean_files_eq] at h
    split_ifs at h
    simp at h
    subst h
    simp
  · rw [clean_email_eq] at h
    split_ifs at h
    simp at h
    subst h
    simp
  · rw [clean_username_eq] at h
    split_ifs at h <;> simp at h <;> subst h <;> simp

theorem claim_c4_messages_fixed_templates_witness :
    "The a@b.c email already exists " =
      "The " ++ "a@b.c" ++ " email already exists " :=
  (claim_c4_messages_fixed_templates [User.mk "u1" "a@b.c"]
      (User.mk "u1" "a@b.c") "a@b.c" (fun _ => []) "" 0 [] [] "x").1
    "The a@b.c email already exists " rfl

/-- C5: each validator yields to its caller a definite pass/fail outcome
determined by its query of the user table: the three raising validators
return Except.ok on pass and Except.error on fail (raising ValidationError
being the Django fail channel), and validate_captcha returns a pair of a
pass flag and a message. -/
theorem claim_c5_pass_fail {Request : Type} (db : Db) (e text : String)
    (parse_tags : String → List String) (settings : Settings)
    (captcha : CaptchaApi Request) (request : Request) :
    (unique_email db e = Except.ok () ↔ ¬∃ u ∈ db, u.email = e)
    ∧ (check_email db e = Except.ok () ↔ ∃ u ∈ db, u.email = e)
    ∧ (check_tags parse_tags text = Except.ok () ↔
        ¬((parse_tags text).length > 10 ∨ ¬(parse_tags text).Nodup ∨
          ∃ tag ∈ parse_tags text, 10 < tag.length))
    ∧ (validate_captcha settings captcha request =
        if settings.RECAPTCHA_ENABLED then
          captcha.validate_captcha request settings.RECAPTCHA_SECRET_KEY
        else (true, "RECAPTCHA disabled")) := by
  refine ⟨?_, ?_, ?_, rfl⟩
  · rw [unique_email_eq]
    by_cases h : ∃ u ∈ db, u.email = e <;> simp [h]
  · rw [check_email_eq]
    by_cases h : ∃ u ∈ db, u.email = e <;> simp [h]
  · rw [check_tags_eq]
    split_ifs with h1 h2 h3 <;> simp_all

/-- C6: when settings.RECAPTCHA_ENABLED is false, validate_captcha returns
the pair (true, "RECAPTCHA disabled") for every request and get_captcha_field
returns the empty string; neither consults the external captcha module, as
witnessed by the results being identical for any two captcha modules. -/
theorem claim_c6_captcha_disabled {Request : Type} (settings : Settings)
    (captcha captcha2 : CaptchaApi Request) (request : Request)
    (h : settings.RECAPTCHA_ENABLED = false) :
    validate_captcha settings captcha request = (true, "RECAPTCHA disabled")
    ∧ get_captcha_field settings captcha = ""
    ∧ validate_captcha settings captcha request =
        validate_captcha settings captcha2 request
    ∧ get_captcha_field settings captcha = get_captcha_field settings captcha2 := by
  unfold validate_captcha get_captcha_field
  rw [h]
  simp

theorem claim_c6_captcha_disabled_witness :
    validate_captcha (Settings.mk false "site" "secret")
        (CaptchaApi.mk (fun _ => "H") (fun (_ : Unit) _ => (false, "denied"))) () =
      (true, "RECAPTCHA disabled") :=
  (@claim_c6_captcha_disabled Unit (Settings.mk false "site" "secret")
    (CaptchaApi.mk (fun _ => "H") (fun _ _ => (false, "denied")))
    (CaptchaApi.mk (fun _ => "X") (fun _ _ => (true, "granted"))) () rfl).1

/-- C7: the validators are deterministic: two runs on equal inputs against
equal database states produce identical outcomes, including identical
error messages. -/
theorem claim_c7_deterministic (p1 p2 : String → List String)
    (t1 t2 : String) (db1 db2 : Db) (u1 u2 : User)
    (hp : p1 = p2) (ht : t1 = t2) (hdb : db1 = db2) (hu : u1 = u2) :
    check_tags p1 t1 = check_tags p2 t2
    ∧ unique_email db1 t1 = unique_email db2 t2
    ∧ clean_username db1 u1 t1 = clean_username db2 u2 t2 := by
  subst hp
  subst ht
  subst hdb
  subst hu
  exact ⟨rfl, rfl, rfl⟩

theorem claim_c7_deterministic_witness :
    check_tags (fun _ => ["rna-seq"]) "rna-seq" = check_tags (fun _ => ["rna-seq"]) "rna-seq"
    ∧ unique_email [] "rna-seq" = unique_email [] "rna-seq"
    ∧ clean_username [] (User.mk "alice" "a@x") "rna-seq" =
        clean_username [] (User.mk "alice" "a@x") "rna-seq" :=
  claim_c7_deterministic (fun _ => ["rna-seq"]) (fun _ => ["rna-seq"])
    "rna-seq" "rna-seq" [] [] (User.mk "alice" "a@x") (User.mk "alice" "a@x")
    rfl rfl rfl rfl

/-- C8: the username uniqueness check is check-then-set with nothing
atomic about it: in the interleaving where two users both validate the
same new username against the same database state before either write,
both validations pass, and after both writes two rows hold the same
username. -/
theorem claim_c8_race :
    clean_username [User.mk "alice" "a@x", User.mk "bob" "b@x"]
        (User.mk "alice" "a@x") "newname" = Except.ok "newname"
    ∧ clean_username [User.mk "alice" "a@x", User.mk "bob" "b@x"]
        (User.mk "bob" "b@x") "newname" = Except.ok "newname"
    ∧ ((saveUsername (saveUsername [User.mk "alice" "a@x", User.mk "bob" "b@x"]
          (User.mk "alice" "a@x") "newname") (User.mk "bob" "b@x") "newname").filter
        (fun u => u.username == "newname")).length = 2 :=
  ⟨rfl, rfl, rfl⟩

/-- C9: update returns obj unchanged when the form is invalid; when the
form is valid it assigns exactly the cleaned fields whose names are
existing attributes of obj (each to its cleaned value), and any attribute
that is absent from the cleaned data, or absent from obj, keeps its old
value; the result is obj with those in-place assignments. -/
theorem claim_c9_update_frame {α : Type} (obj : Obj α) (form : Form α) :
    (form.is_valid = false → update obj form = obj)
    ∧ (form.is_valid = true →
        (∀ n, n ∉ form.cleaned_data.map Prod.fst → update obj form n = obj n)
        ∧ (∀ n, obj n = none → update obj form n = none)
        ∧ ((form.cleaned_data.map Prod.fst).Nodup →
            ∀ n v, (n, v) ∈ form.cleaned_data → (obj n).isSome = true →
              update obj form n = some v)) := by
  refine ⟨?_, ?_⟩
  · intro h
    rw [update_eq_foldl, h]
    simp
  · intro h
    refine ⟨?_, ?_, ?_⟩
    · intro n hn
      rw [update_eq_foldl, h, if_pos rfl]
      exact foldl_updStep_not_mem _ _ _ hn
    · intro n hn
      rw [update_eq_foldl, h, if_pos rfl]
      exact foldl_updStep_none _ _ _ hn
    · intro hnd n v hmem hs
      rw [update_eq_foldl, h, if_pos rfl]
      exact foldl_updStep_assigned _ _ _ _ hnd hmem hs

theorem claim_c9_update_frame_witness :
    update (fun n => if n = "name" then (some 0 : Option Nat) else none)
        (Form.mk true [("name", 5), ("missing", 7)]) "name" = some 5
    ∧ update (fun n => if n = "name" then (some 0 : Option Nat) else none)
        (Form.mk true [("name", 5), ("missing", 7)]) "missing" = none :=
  ⟨((claim_c9_update_frame (fun n => if n = "name" then (some 0 : Option Nat) else none)
      (Form.mk true [("name", 5), ("missing", 7)])).2 rfl).2.2
      (by decide) "name" 5 (by decide) (by decide),
   ((claim_c9_update_frame (fun n => if n = "name" then (some 0 : Option Nat) else none)
      (Form.mk true [("name", 5), ("missing", 7)])).2 rfl).2.1
      "missing" (by decide)⟩

/-- C10 counterexample: on the input built from a tab, an at-sign and two
letters, clean_username accepts and returns a string with a leading
at-sign (the tab is not in the strip set, so the at-sign survives the
strip and only then the tab is removed), and re-normalising that returned
value changes it, so the normalisation is not idempotent either. -/
theorem claim_c10_counterexample :
    clean_username [User.mk "alice" "a@x"] (User.mk "alice" "a@x") "\x09@ab" =
      Except.ok "@ab"
    ∧ "@ab".data.head? = some '@'
    ∧ normUsername "@ab" = "ab"
    ∧ "@ab" ≠ "ab" :=
  ⟨rfl, rfl, by decide, by decide⟩

/-- C10 amended: clean_username always returns a lower-cased string with
no whitespace; when every whitespace character of the input is a plain
space, the returned string additionally has no leading or trailing space
or at-sign and the normalisation is idempotent on it; and the current
username of the user, when it normalises to itself, is always accepted,
even when it starts with "user". -/
theorem claim_c10_clean_username_normalised (db : Db) (user : User) (t : String) :
    (∀ r, clean_username db user t = Except.ok r →
      ∀ c ∈ r.data, pyIsSpace c = false ∧ ¬(65 ≤ c.toNat ∧ c.toNat ≤ 90))
    ∧ ((∀ c ∈ t.data, pyIsSpace c = true → c = ' ') →
        ∀ r, clean_username db user t = Except.ok r →
          (∀ a rest, r.data = a :: rest → inStripSet a = false)
          ∧ (∀ a rest, r.data.reverse = a :: rest → inStripSet a = false)
          ∧ normUsername r = r)
    ∧ (normUsername user.username = user.username →
        clean_username db user user.username = Except.ok user.username) := by
  refine ⟨?_, ?_, ?_⟩
  · intro r h
    rw [clean_username_ok h]
    exact normUsername_no_ws_no_upper t
  · intro H r h
    rw [clean_username_ok h]
    exact ⟨normUsername_head H, normUsername_last H, normUsername_idem H⟩
  · intro hn
    rw [clean_username_eq]
    rw [if_neg (fun hc => hc.1 hn), if_neg (fun hc => hc.1 hn), hn]

theorem claim_c10_clean_username_normalised_witness :
    normUsername "abcd" = "abcd"
    ∧ clean_username [User.mk "alice" "a@x"] (User.mk "alice" "a@x") "alice" =
        Except.ok "alice" :=
  ⟨((claim_c10_clean_username_normalised [User.mk "alice" "a@x"]
      (User.mk "alice" "a@x") " AB cd ").2.1 (by decide) "abcd" rfl).2.2,
   (claim_c10_clean_username_normalised [User.mk "alice" "a@x"]
      (User.mk "alice" "a@x") "x").2.2 (by decide)⟩

end Biostar
